import Mathlib

/-!
Verification of the weather-cli repository's core pipeline:
city resolution, upstream fetch/normalize, weather-code translation, and
time-windowed cache keys.

The Go source is shallowly embedded:
* `time.Time` values are wall-clock field records (`GoTime`), all in UTC
  (the cache layer converts to UTC before formatting, so one location
  suffices for the facts proved here);
* `float64` coordinate and measurement values become `ℚ` — the embedded
  code only copies them and compares them with zero, never does
  arithmetic on them, so rationals are a faithful carrier;
* Go maps become association lists with prepend-insert (last write wins
  on lookup, matching Go map semantics);
* fallible operations return `Except`/`Option`; I/O outcomes (file
  reads, JSON parses, HTTP exchanges, Redis replies) are oracle
  parameters so the decision logic stays exactly the source's.
-/

namespace WeatherCli

/-! ## Go `strings` helpers (ASCII fragment, as exercised by the repo) -/

/-- The whitespace class used by `strings.TrimSpace`, restricted to the
ASCII space characters (the repository only ever feeds ASCII city names). -/
def goIsSpace (c : Char) : Bool :=
  c == ' ' || c == '\t' || c == '\n' || c == '\r' || c == '\x0b' || c == '\x0c'

/-- Go `strings.TrimSpace`: drop leading and trailing whitespace. -/
def trimSpace (s : String) : String :=
  ⟨((s.data.dropWhile goIsSpace).reverse.dropWhile goIsSpace).reverse⟩

/-- Go `strings.ToLower` (ASCII fragment). -/
def goToLower (s : String) : String :=
  ⟨s.data.map Char.toLower⟩

/-- Go `strings.Trim(s, " ")`: drop leading and trailing plain spaces only. -/
def trimSpaceChars (s : String) : String :=
  ⟨((s.data.dropWhile (· == ' ')).reverse.dropWhile (· == ' ')).reverse⟩

/-- Go `strings.ReplaceAll(s, " ", "_")` for the single-character pattern. -/
def replaceSpaces (s : String) : String :=
  ⟨s.data.map (fun c => if c = ' ' then '_' else c)⟩

/-- Go `strings.Split(s, ",")[0]`: the substring before the first comma
(the whole string when no comma occurs). -/
def beforeComma (s : String) : String :=
  ⟨s.data.takeWhile (· ≠ ',')⟩

/-- Does `p` occur at the head of `l`? (substring search helper) -/
def headMatches (p l : List Char) : Bool :=
  match p, l with
  | [], _ => true
  | _ :: _, [] => false
  | a :: ps, b :: ls => a == b && headMatches ps ls

/-- Does `p` occur contiguously anywhere inside `l`? -/
def containsSub (l p : List Char) : Bool :=
  match l with
  | [] => p.isEmpty
  | _ :: tl => headMatches p l || containsSub tl p

/-- Go `strings.Contains`: substring occurrence test. -/
def strContains (s pat : String) : Bool :=
  containsSub s.data pat.data

/-! ## Wall-clock time and the cache key (`server/pkg/cache/redis.go`) -/

/-- A Go `time.Time` as a record of wall-clock fields, fixed to UTC. -/
structure GoTime where
  year : Nat
  month : Nat
  day : Nat
  hour : Nat
  minute : Nat
  sec : Nat
  nsec : Nat
deriving DecidableEq, Repr

/-- A `GoTime` produced by `time.Now()` has its fields in calendar
range; the cache key is only ever built from such values.  The year
bound keeps Go's 4-digit RFC 3339 year rendering fixed-width. -/
def GoTime.Valid (t : GoTime) : Prop :=
  0 < t.year ∧ t.year < 10000 ∧ 1 ≤ t.month ∧ t.month ≤ 12 ∧
  1 ≤ t.day ∧ t.day ≤ 31 ∧ t.hour < 24 ∧ t.minute < 60 ∧ t.sec < 60

instance (t : GoTime) : Decidable t.Valid := by
  unfold GoTime.Valid; infer_instance

/-- Function `roundTo15Min` from `server/pkg/cache/redis.go`: keep the date and
hour, round the minute down to a multiple of 15, zero the seconds and
nanoseconds.  (For in-range fields `time.Date` performs no
normalization, so the field-wise update is exact.) -/
def roundTo15Min (t : GoTime) : GoTime :=
  { t with minute := t.minute / 15 * 15, sec := 0, nsec := 0 }

/-- The decimal digit character for `d < 10`. -/
def digitChar (d : Nat) : Char := Char.ofNat (48 + d)

/-- Two zero-padded decimal digits, as printed by Go's `%02d`-style
time rendering for values below 100. -/
def pad2 (n : Nat) : List Char := [digitChar (n / 10), digitChar (n % 10)]

/-- Four zero-padded decimal digits (the RFC 3339 year field for years
below 10000). -/
def pad4 (n : Nat) : List Char :=
  [digitChar (n / 1000), digitChar (n / 100 % 10),
   digitChar (n / 10 % 10), digitChar (n % 10)]

/-- Character sequence of `t.Format(time.RFC3339)` for a UTC time with
an in-range year: `YYYY-MM-DDThh:mm:ssZ`. -/
def rfc3339data (t : GoTime) : List Char :=
  pad4 t.year ++ '-' :: pad2 t.month ++ '-' :: pad2 t.day ++
  'T' :: pad2 t.hour ++ ':' :: pad2 t.minute ++ ':' :: pad2 t.sec ++ ['Z']

/-- Rendering `t.Format(time.RFC3339)` for a UTC time with an in-range year. -/
def rfc3339 (t : GoTime) : String :=
  ⟨rfc3339data t⟩

/-- Function `buildKey` from `server/pkg/cache/redis.go`:
`"weather:<city>:<rounded-RFC3339-UTC>"`. -/
def buildKey (city : String) (t : GoTime) : String :=
  "weather:" ++ city ++ ":" ++ rfc3339 (roundTo15Min t)

/-- Leap-year rule of the proleptic Gregorian calendar (as in Go's
`time` package). -/
def isLeap (y : Nat) : Bool :=
  y % 4 == 0 && (y % 100 != 0 || y % 400 == 0)

/-- Number of days in a month. -/
def daysInMonth (y m : Nat) : Nat :=
  if m = 2 then (if isLeap y then 29 else 28)
  else if m = 4 ∨ m = 6 ∨ m = 9 ∨ m = 11 then 30
  else 31

/-- The start of the 15-minute wall-clock window immediately following
the window that starts at `w` (calendar carry included).  Used to state
the spec's "immediately following window" property. -/
def nextWindow (w : GoTime) : GoTime :=
  if w.minute + 15 < 60 then { w with minute := w.minute + 15 }
  else if w.hour + 1 < 24 then { w with minute := 0, hour := w.hour + 1 }
  else if w.day + 1 ≤ daysInMonth w.year w.month then
    { w with minute := 0, hour := 0, day := w.day + 1 }
  else if w.month + 1 ≤ 12 then
    { w with minute := 0, hour := 0, day := 1, month := w.month + 1 }
  else
    { w with minute := 0, hour := 0, day := 1, month := 1, year := w.year + 1 }

/-! digit-rendering injectivity, used to separate cache keys -/

theorem digitChar_inj : ∀ a, a < 10 → ∀ b, b < 10 → digitChar a = digitChar b → a = b := by
  decide

theorem rfc3339_inj {t u : GoTime}
    (ht : t.year < 10000 ∧ t.month < 100 ∧ t.day < 100 ∧ t.hour < 100 ∧
          t.minute < 100 ∧ t.sec < 100)
    (hu : u.year < 10000 ∧ u.month < 100 ∧ u.day < 100 ∧ u.hour < 100 ∧
          u.minute < 100 ∧ u.sec < 100)
    (h : rfc3339 t = rfc3339 u) :
    t.year = u.year ∧ t.month = u.month ∧ t.day = u.day ∧
    t.hour = u.hour ∧ t.minute = u.minute ∧ t.sec = u.sec := by
  obtain ⟨hty, htm, htd, hth, htmi, hts⟩ := ht
  obtain ⟨huy, hum, hud, huh, humi, hus⟩ := hu
  have hd : rfc3339data t = rfc3339data u := congrArg String.data h
  simp only [rfc3339data, pad4, pad2, List.cons_append, List.nil_append,
    List.cons.injEq, eq_self_iff_true, and_true, true_and] at hd
  obtain ⟨e1, e2, e3, e4, e5, e6, e7, e8, e9, e10, e11, e12, e13, e14⟩ := hd
  have d1 := digitChar_inj _ (by omega) _ (by omega) e1
  have d2 := digitChar_inj _ (by omega) _ (by omega) e2
  have d3 := digitChar_inj _ (by omega) _ (by omega) e3
  have d4 := digitChar_inj _ (by omega) _ (by omega) e4
  have d5 := digitChar_inj _ (by omega) _ (by omega) e5
  have d6 := digitChar_inj _ (by omega) _ (by omega) e6
  have d7 := digitChar_inj _ (by omega) _ (by omega) e7
  have d8 := digitChar_inj _ (by omega) _ (by omega) e8
  have d9 := digitChar_inj _ (by omega) _ (by omega) e9
  have d10 := digitChar_inj _ (by omega) _ (by omega) e10
  have d11 := digitChar_inj _ (by omega) _ (by omega) e11
  have d12 := digitChar_inj _ (by omega) _ (by omega) e12
  have d13 := digitChar_inj _ (by omega) _ (by omega) e13
  have d14 := digitChar_inj _ (by omega) _ (by omega) e14
  refine ⟨by omega, by omega, by omega, by omega, by omega, by omega⟩

theorem string_data_append (s t : String) : (s ++ t).data = s.data ++ t.data := rfl

/-- Sanity: the key format matches the examples in the source comments. -/
example : buildKey "mumbai" ⟨2025, 10, 3, 10, 23, 7, 1⟩ =
    "weather:mumbai:2025-10-03T10:15:00Z" := rfl

/-- C2: for every city string and every pair of timestamps in the same
15-minute wall-clock window (same year, month, day, hour and the same
15-minute bucket of the minute), `buildKey` produces the same cache key. -/
theorem buildKey_eq_of_same_window (city : String) (t1 t2 : GoTime)
    (h1 : t1.Valid) (h2 : t2.Valid)
    (hy : t1.year = t2.year) (hmo : t1.month = t2.month) (hd : t1.day = t2.day)
    (hh : t1.hour = t2.hour) (hb : t1.minute / 15 = t2.minute / 15) :
    buildKey city t1 = buildKey city t2 := by
  have hr : roundTo15Min t1 = roundTo15Min t2 := by
    cases t1; cases t2
    simp_all only [roundTo15Min, GoTime.mk.injEq, and_true, true_and]
  unfold buildKey
  rw [hr]

theorem buildKey_eq_of_same_window_witness :
    buildKey "chennai" ⟨2025, 10, 3, 10, 7, 23, 0⟩ =
    buildKey "chennai" ⟨2025, 10, 3, 10, 12, 45, 500⟩ :=
  buildKey_eq_of_same_window "chennai" _ _ (by decide) (by decide)
    rfl rfl rfl rfl (by decide)

/-- C9: for every city and timestamps `t1`, `t2` such that `t2` falls in
the 15-minute window immediately following `t1`'s window, the two cache
keys differ. -/
theorem buildKey_ne_of_next_window (city : String) (t1 t2 : GoTime)
    (h1 : t1.Valid) (h2 : t2.Valid)
    (hw : roundTo15Min t2 = nextWindow (roundTo15Min t1)) :
    buildKey city t1 ≠ buildKey city t2 := by
  intro hk
  obtain ⟨hy1p, hy1, hm1l, hm1, hd1l, hd1, hh1, hmi1, hs1⟩ := h1
  obtain ⟨hy2p, hy2, hm2l, hm2, hd2l, hd2, hh2, hmi2, hs2⟩ := h2
  have hdata := congrArg String.data hk
  simp only [buildKey, string_data_append] at hdata
  have hrfc : rfc3339 (roundTo15Min t1) = rfc3339 (roundTo15Min t2) :=
    congrArg String.mk (List.append_cancel_left hdata)
  have b1 : (roundTo15Min t1).year < 10000 ∧ (roundTo15Min t1).month < 100 ∧
      (roundTo15Min t1).day < 100 ∧ (roundTo15Min t1).hour < 100 ∧
      (roundTo15Min t1).minute < 100 ∧ (roundTo15Min t1).sec < 100 := by
    simp only [roundTo15Min]
    refine ⟨by omega, by omega, by omega, by omega, by omega, by omega⟩
  have b2 : (roundTo15Min t2).year < 10000 ∧ (roundTo15Min t2).month < 100 ∧
      (roundTo15Min t2).day < 100 ∧ (roundTo15Min t2).hour < 100 ∧
      (roundTo15Min t2).minute < 100 ∧ (roundTo15Min t2).sec < 100 := by
    simp only [roundTo15Min]
    refine ⟨by omega, by omega, by omega, by omega, by omega, by omega⟩
  obtain ⟨ey, em, ed, eh, emi, es⟩ := rfc3339_inj b1 b2 hrfc
  rw [hw] at ey em ed eh emi
  simp only [nextWindow] at ey em ed eh emi
  split_ifs at ey em ed eh emi <;> dsimp only at ey em ed eh emi <;> omega

theorem buildKey_ne_of_next_window_witness :
    buildKey "chennai" ⟨2025, 10, 3, 10, 7, 23, 0⟩ ≠
    buildKey "chennai" ⟨2025, 10, 3, 10, 18, 2, 9⟩ :=
  buildKey_ne_of_next_window "chennai" _ _ (by decide) (by decide) (by decide)

/-! ## Data model of `pkg/weather/weather.go` -/

deriving instance DecidableEq for Except

/-- The city table built by `readCities`: name → `[lat, lon]`.  A Go map
is modeled as an association list where `insert` prepends, so the most
recent write shadows older ones on lookup. -/
def Table := List (String × (ℚ × ℚ))

instance : DecidableEq Table := by unfold Table; infer_instance

/-- Go map write `out[name] = coords` (last write wins on lookup). -/
def Table.insert (t : Table) (k : String) (v : ℚ × ℚ) : Table := (k, v) :: t

/-- Go map read `cities[key]`. -/
def Table.find (t : Table) (k : String) : Option (ℚ × ℚ) := List.lookup k t

/-- Struct `cityEntry` from `pkg/weather/weather.go`: tolerant decoding target
for `cities.json` entries (absent JSON fields decode to `""`/`0`). -/
structure CityEntry where
  Name : String
  City : String
  Latitude : ℚ
  Longitude : ℚ
  Lat : ℚ
  Lon : ℚ
deriving DecidableEq

/-- Function `firstNonEmpty` from `pkg/weather/weather.go`. -/
def firstNonEmpty (s1 s2 : String) : String :=
  if trimSpace s1 ≠ "" then s1 else s2

/-- Function `firstNonZero` from `pkg/weather/weather.go`. -/
def firstNonZero (f1 f2 : ℚ) : ℚ :=
  if f1 ≠ 0 then f1 else f2

/-- One entry from the object-shaped `cities.json` variant
(`map[string]map[string]float64`); a key absent from the inner Go map
reads as `0`. -/
structure ObjEntry where
  lat : ℚ
  latitude : ℚ
  lon : ℚ
  longitude : ℚ
deriving DecidableEq

/-- One iteration of the array-branch loop of `readCities`: skip blank
names, keep the entry only when the selected coordinates are not both
zero. -/
def arrStep (out : Table) (e : CityEntry) : Table :=
  let name := goToLower (trimSpace (firstNonEmpty e.Name e.City))
  if name = "" then out
  else
    let lat := firstNonZero e.Lat e.Latitude
    let lon := firstNonZero e.Lon e.Longitude
    if lat ≠ 0 ∨ lon ≠ 0 then out.insert name (lat, lon) else out

/-- The array branch of `readCities`. -/
def citiesFromArray (arr : List CityEntry) : Table :=
  arr.foldl arrStep []

/-- The object-branch loop body of `readCities`. -/
def citiesFromObj (obj : List (String × ObjEntry)) : Table :=
  obj.foldl
    (fun out p =>
      let lat := if p.2.lat = 0 then p.2.latitude else p.2.lat
      let lon := if p.2.lon = 0 then p.2.longitude else p.2.lon
      if lat ≠ 0 ∨ lon ≠ 0 then
        out.insert (goToLower (trimSpace p.1)) (lat, lon)
      else out)
    []

/-- The object-parse fallthrough of `readCities` (tried when the
array parse fails or yields an empty slice). -/
def readCitiesObj (objParse : Option (List (String × ObjEntry))) :
    Except String Table :=
  match objParse with
  | some obj =>
    if obj = [] then
      .error "readCities: unsupported JSON structure or empty file"
    else
      if citiesFromObj obj = [] then
        .error "readCities: parsed object but found no valid coords"
      else .ok (citiesFromObj obj)
  | none => .error "readCities: unsupported JSON structure or empty file"

/-- Function `readCities` from `pkg/weather/weather.go`.  The file read and the
two JSON parse attempts are oracle inputs: `readOk` is false when the
file could not be read (or was empty), `arrParse`/`objParse` are the
outcomes of unmarshalling as an array / as an object. -/
def readCities (readOk : Bool) (arrParse : Option (List CityEntry))
    (objParse : Option (List (String × ObjEntry))) : Except String Table :=
  if !readOk then .error "readCities: failed to read locations/cities.json"
  else
    match arrParse with
    | some arr =>
      if arr = [] then readCitiesObj objParse
      else
        if citiesFromArray arr = [] then
          .error "readCities: parsed file but found no valid entries"
        else .ok (citiesFromArray arr)
    | none => readCitiesObj objParse

/-- The nested `current_weather` object of the upstream response, as
decoded by `GetWeather`'s anonymous `raw` struct. -/
structure CurrentWeather where
  Temperature : ℚ
  WeatherCode : Int
  Time : String
  Windspeed : ℚ
  Winddirection : ℚ
  Humidity : ℚ
  Rain : ℚ
deriving DecidableEq

/-- The upstream response decoded by `GetWeather`. -/
structure RawResp where
  Latitude : ℚ
  Longitude : ℚ
  Generationtime : ℚ
  CurrentWeather : CurrentWeather
deriving DecidableEq

/-- Struct `WeatherResp` from `pkg/weather/weather.go`: the sanitized result
returned to callers and serialized into the HTTP response. -/
structure WeatherResp where
  City : String
  TempC : ℚ
  Description : String
  Timestamp : String
  Lat : ℚ
  Lon : ℚ
  WeatherCode : Int
  Humidity : ℚ
  Rain : ℚ
deriving DecidableEq

/-- An HTTP exchange that completed at the transport level. -/
structure HttpResp where
  status : Nat
  body : String
deriving DecidableEq

/-- The error outcomes of `GetWeather`, one constructor per `return`
site producing an error.  In the source these are `fmt.Errorf` values
with pairwise-distinct message heads (plus the sentinel errors
`ErrCitiesUnavailable` and `ErrCityNotFound`); the constructor carries
exactly the data the corresponding message interpolates. -/
inductive GWErr where
  | cityRequired
  | citiesUnavailable (msg : String)
  | cityNotFound
  | upstreamUnreachable (msg : String)
  | upstreamError (status : Nat) (body : String)
  | decodeFailed
deriving DecidableEq

/-- The rendered `err.Error()` string of each `GetWeather` error. -/
def GWErr.message : GWErr → String
  | .cityRequired => "city name is required"
  | .citiesUnavailable m => "cities data unavailable: " ++ m
  | .cityNotFound => "city not found"
  | .upstreamUnreachable m => "upstream request failed: " ++ m
  | .upstreamError s b => "upstream error " ++ toString s ++ ": " ++ b
  | .decodeFailed => "decode failed"

/-- Observable effects of one `GetWeather` call, in order. -/
inductive Eff where
  | readCities
  | fetch
deriving DecidableEq

/-- The lookup heuristic inside `GetWeather` (`weather.go:166-175`):
exact key, then the part before the first comma, else `ErrCityNotFound`. -/
def resolveStep (cities : Table) (cityKey : String) : Except GWErr (ℚ × ℚ) :=
  match cities.find cityKey with
  | some v => .ok v
  | none =>
    match cities.find (beforeComma cityKey) with
    | some v => .ok v
    | none => .error .cityNotFound

/-- The weather-code translation inside `GetWeather`
(`weather.go:215-219`): table hit, else `"Unknown code <n>"`. -/
def describeCode (codes : List (Int × String)) (c : Int) : String :=
  match List.lookup c codes with
  | some d => d
  | none => "Unknown code " ++ toString c

/-- Function `GetWeather` from `pkg/weather/weather.go` (the variant under
`src/`, which performs no cache access).  I/O outcomes are oracles:
`citiesRes` is what `readCities` returned, `fetchRes` the transport
outcome of the upstream request, `decodeBody` the JSON decode of a
2xx body, `codes` the table from `loadWeatherCodes`.  The second
component lists the performed effects in order.  Note the composite
literal for the result omits `WeatherCode`, so it stays at Go's zero
value `0`. -/
def getWeather (city : String) (citiesRes : Except String Table)
    (fetchRes : Except String HttpResp) (decodeBody : String → Option RawResp)
    (codes : List (Int × String)) : Except GWErr WeatherResp × List Eff :=
  if trimSpace city = "" then (.error .cityRequired, [])
  else
    let cityKey := goToLower (trimSpace city)
    match citiesRes with
    | .error e => (.error (.citiesUnavailable e), [.readCities])
    | .ok cities =>
      match resolveStep cities cityKey with
      | .error e => (.error e, [.readCities])
      | .ok _coords =>
        match fetchRes with
        | .error e => (.error (.upstreamUnreachable e), [.readCities, .fetch])
        | .ok resp =>
          if resp.status ≠ 200 then
            (.error (.upstreamError resp.status (trimSpace resp.body)),
             [.readCities, .fetch])
          else
            match decodeBody resp.body with
            | none => (.error .decodeFailed, [.readCities, .fetch])
            | some raw =>
              let desc := describeCode codes raw.CurrentWeather.WeatherCode
              (.ok { City := city, TempC := raw.CurrentWeather.Temperature,
                     Description := desc, Timestamp := raw.CurrentWeather.Time,
                     Lat := raw.Latitude, Lon := raw.Longitude,
                     WeatherCode := 0,
                     Humidity := raw.CurrentWeather.Humidity,
                     Rain := raw.CurrentWeather.Rain },
               [.readCities, .fetch])

/-- The error → HTTP status mapping of `server/main.go`'s
`weatherHandler`: `errors.Is(err, ErrCityNotFound)` → 404, any other
error → 500 (success encodes the body with status 200). -/
def weatherHandlerStatus (r : Except GWErr WeatherResp) : Nat :=
  match r with
  | .ok _ => 200
  | .error .cityNotFound => 404
  | .error _ => 500

/-! ## `locations/getLocationByCity.go` (CLI resolver) -/

/-- The `Location` struct of the `locations` package (coordinates of a
city in `cities.json`). -/
structure Location where
  Latitude : ℚ
  Longitude : ℚ
deriving DecidableEq

/-- Function `GetLocationByCity` from `locations/getLocationByCity.go`.  The
file read / unmarshal outcome is the oracle `fileRes`; on success the
city string is lowercased, trimmed of surrounding plain spaces, its
remaining spaces replaced by underscores, and looked up exactly once. -/
def getLocationByCity (fileRes : Except String (List (String × Location)))
    (city : String) : Except String Location :=
  match fileRes with
  | .error e => .error e
  | .ok citiesData =>
    let key := replaceSpaces (trimSpaceChars (goToLower city))
    match List.lookup key citiesData with
    | some cityLocation => .ok cityLocation
    | none => .error "city not found in our Database"

/-! ## `weather_codes/getWeatherDescription.go` -/

/-- Function `GetWeatherDescription` from `weather_codes/getWeatherDescription.go`.
Oracles: `fileOk` is whether `weather_codes/data.json` could be read,
`parse` the unmarshal outcome.  The Go parameter is a `float32` keyed
via `strconv.FormatFloat(·, 'f', 0, 64)`; integral codes render as
plain decimal integers, embedded here as `Int` with `toString`. -/
def getWeatherDescription (fileOk : Bool) (parse : Option (List (String × String)))
    (weatherCode : Int) : String :=
  if !fileOk then "Weather codes data unavailable!"
  else
    match parse with
    | none => "Corrupted weather codes data!"
    | some weatherCodesData =>
      match List.lookup (toString weatherCode) weatherCodesData with
      | some description => description
      | none => "No matching description found!"

/-! ## `server/pkg/cache/redis.go`: `Client.Get` -/

/-- Outcome of the Redis `GET` command for one key: key absent
(`redis.Nil`), a stored value, or a transport/protocol error. -/
inductive RedisReply where
  | nil
  | val (s : String)
  | err (e : String)
deriving DecidableEq

/-- Method `Client.Get` from `server/pkg/cache/redis.go`: build the window key
and interrogate the store (`store` maps keys to replies).  `redis.Nil`
becomes the error-free absent result `(nil, nil)`; only other Redis
errors are returned on the error channel. -/
def clientGet (store : String → RedisReply) (city : String) (at' : GoTime) :
    Except String (Option String) :=
  match store (buildKey city at') with
  | .nil => .ok none
  | .err e => .error ("redis get failed: " ++ e)
  | .val v => .ok (some v)

/-! ## The cache-integrated orchestrator (spec-modelled) -/

/-- Observable effects of the cache-integrated `GetWeather`, in order. -/
inductive CEff where
  | cacheGet
  | resolve
  | fetch
  | cacheSet
deriving DecidableEq

/-- Modelled from the spec: the cache-integrated `GetWeather` of
`server/pkg/weather/weather.go` is not under `src/` — only its caller
(`server/main.go`, which injects the cache client) and the cache client
itself are.  Following spec §4.5: validate; normalize; consult the
Cache-Aside Store at the current wall-clock time; on a hit whose
payload decodes, return it immediately; on a miss, a store error, or a
corrupt payload, continue with resolver → upstream fetch → code
translation → assemble → best-effort cache write.  `cacheRes` is the
store's `Get` outcome and `decodeCached` the payload decode. -/
def getWeatherCached (city : String) (cacheRes : Except String (Option String))
    (decodeCached : String → Option WeatherResp)
    (resolveRes : Except GWErr (ℚ × ℚ))
    (fetchRes : Except String HttpResp) (decodeBody : String → Option RawResp)
    (codes : List (Int × String)) : Except GWErr WeatherResp × List CEff :=
  if trimSpace city = "" then (.error .cityRequired, [])
  else
    let missPath : Except GWErr WeatherResp × List CEff :=
      match resolveRes with
      | .error e => (.error e, [.cacheGet, .resolve])
      | .ok _coords =>
        match fetchRes with
        | .error e => (.error (.upstreamUnreachable e), [.cacheGet, .resolve, .fetch])
        | .ok resp =>
          if resp.status ≠ 200 then
            (.error (.upstreamError resp.status (trimSpace resp.body)),
             [.cacheGet, .resolve, .fetch])
          else
            match decodeBody resp.body with
            | none => (.error .decodeFailed, [.cacheGet, .resolve, .fetch])
            | some raw =>
              (.ok { City := city, TempC := raw.CurrentWeather.Temperature,
                     Description := describeCode codes raw.CurrentWeather.WeatherCode,
                     Timestamp := raw.CurrentWeather.Time,
                     Lat := raw.Latitude, Lon := raw.Longitude,
                     WeatherCode := raw.CurrentWeather.WeatherCode,
                     Humidity := raw.CurrentWeather.Humidity,
                     Rain := raw.CurrentWeather.Rain },
               [.cacheGet, .resolve, .fetch, .cacheSet])
    match cacheRes with
    | .ok (some payload) =>
      match decodeCached payload with
      | some w => (.ok w, [.cacheGet])
      | none => missPath
    | .ok none => missPath
    | .error _ => missPath

/-! ## Substring lemmas for the code-translation claims -/

theorem headMatches_append (p r : List Char) : headMatches p (p ++ r) = true := by
  induction p with
  | nil => rfl
  | cons a ps ih => simp [headMatches, ih]

theorem containsSub_append (xs p : List Char) : containsSub (xs ++ p) p = true := by
  induction xs with
  | nil =>
    cases p with
    | nil => rfl
    | cons a ps =>
      have h := headMatches_append (a :: ps) []
      rw [List.append_nil] at h
      simp [containsSub, h]
  | cons x xs ih => simp [containsSub, ih]

theorem strContains_append_right (s pat : String) :
    strContains (s ++ pat) pat = true := by
  have h := containsSub_append s.data pat.data
  simpa [strContains, string_data_append] using h

theorem string_append_ne_empty_left (s t : String) (h : s ≠ "") : s ++ t ≠ "" := by
  intro he
  apply h
  have hd := congrArg String.data he
  rw [string_data_append] at hd
  have h1 : s.data = [] := (List.append_eq_nil.mp hd).1
  cases s
  simp_all

/-! ## Claim theorems -/

/-- C1 (spec-modelled): when the cache lookup at the current wall-clock
time returns a present payload that decodes successfully, the
orchestrator returns the decoded `WeatherResult` with the cache read as
its one and only effect — no location-resolver call and no upstream
fetch happen, and the cache is consulted before any of them. -/
theorem cache_hit_no_upstream (city payload : String) (w : WeatherResp)
    (cacheRes : Except String (Option String))
    (decodeCached : String → Option WeatherResp)
    (resolveRes : Except GWErr (ℚ × ℚ)) (fetchRes : Except String HttpResp)
    (decodeBody : String → Option RawResp) (codes : List (Int × String))
    (h1 : trimSpace city ≠ "")
    (h2 : cacheRes = .ok (some payload))
    (h3 : decodeCached payload = some w) :
    getWeatherCached city cacheRes decodeCached resolveRes fetchRes decodeBody codes
      = (.ok w, [CEff.cacheGet]) := by
  subst h2
  simp [getWeatherCached, h1, h3]

theorem cache_hit_no_upstream_witness :
    getWeatherCached "chennai" (.ok (some "p"))
      (fun _ => some ⟨"chennai", 31, "Overcast", "t0", 13, 80, 3, 70, 0⟩)
      (.error .cityNotFound) (.error "down") (fun _ => none) []
      = (.ok ⟨"chennai", 31, "Overcast", "t0", 13, 80, 3, 70, 0⟩, [CEff.cacheGet]) :=
  cache_hit_no_upstream "chennai" "p" _ _ _ _ _ _ _ (by decide) rfl rfl

/-- The city-resolution step of the server path, as the source composes
it: the normalization of `weather.go:157` feeding the lookup heuristic
of `weather.go:166-175`. -/
def serverResolve (cities : Table) (city : String) : Except GWErr (ℚ × ℚ) :=
  resolveStep cities (goToLower (trimSpace city))

/-- The resolver exactly as claim C3 words it (claim-modelled, for
comparison): lowercase, trim, collapse internal spaces to underscores,
exact lookup, retry before the first comma, else `CityNotFound`. -/
def resolverPerClaim (cities : Table) (city : String) : Except GWErr (ℚ × ℚ) :=
  let key := replaceSpaces (trimSpace (goToLower city))
  match cities.find key with
  | some v => .ok v
  | none =>
    match cities.find (beforeComma key) with
    | some v => .ok v
    | none => .error .cityNotFound

/-- Follows the amended claim C3, server path: normalization is
lowercase + trim only (internal spaces are kept), then exact lookup,
then the before-the-comma retry, else `CityNotFound`. -/
def resolveAmendedServer (cities : Table) (city : String) : Except GWErr (ℚ × ℚ) :=
  let key := goToLower (trimSpace city)
  match cities.find key with
  | some v => .ok v
  | none =>
    match cities.find (beforeComma key) with
    | some v => .ok v
    | none => .error .cityNotFound

/-- Follows the amended claim C3, CLI path: lowercase, trim surrounding
spaces, collapse internal spaces to underscores, then a single exact
lookup with no comma retry. -/
def cliLookupAmended (fileRes : Except String (List (String × Location)))
    (city : String) : Except String Location :=
  match fileRes with
  | .error e => .error e
  | .ok citiesData =>
    match List.lookup (replaceSpaces (trimSpaceChars (goToLower city))) citiesData with
    | some cityLocation => .ok cityLocation
    | none => .error "city not found in our Database"

/-- C3 (counterexample): the server resolver does not collapse internal
spaces to underscores, so with the table entry `"new_york"` and input
`"new york"` it misses while the claim's resolver hits. -/
theorem resolver_claim_counterexample :
    serverResolve [("new_york", (1, 2))] "new york" ≠
    resolverPerClaim [("new_york", (1, 2))] "new york" := by decide

/-- C3 (amended): the server path normalizes by lowercasing and
trimming only, then tries the exact key and the before-the-comma key
before failing with `CityNotFound`; the CLI's `GetLocationByCity` does
collapse spaces to underscores but performs only the single exact
lookup, with no comma retry. -/
theorem resolver_amended :
    (∀ (cities : Table) (city : String),
        serverResolve cities city = resolveAmendedServer cities city) ∧
    (∀ (fileRes : Except String (List (String × Location))) (city : String),
        getLocationByCity fileRes city = cliLookupAmended fileRes city) :=
  ⟨fun _ _ => rfl, fun _ _ => rfl⟩

/-- C4 (counterexample): `GetWeatherDescription` answers an unknown
code 17 with the fixed string `"No matching description found!"`,
which does not contain the numeric code. -/
theorem translator_unknown_no_code_counterexample :
    getWeatherDescription true (some []) 17 = "No matching description found!" ∧
    strContains (getWeatherDescription true (some []) 17) "17" = false := by decide

/-- C4 (amended): the translators never fail — every branch returns a
non-empty string for an absent code — but only `GetWeather`'s inline
translation synthesizes a placeholder containing the numeric code
(`"Unknown code <n>"`); `GetWeatherDescription` returns the fixed
placeholder `"No matching description found!"` without the code. -/
theorem translator_amended :
    (∀ (tbl : List (String × String)) (code : Int),
        List.lookup (toString code) tbl = none →
        getWeatherDescription true (some tbl) code = "No matching description found!" ∧
        getWeatherDescription true (some tbl) code ≠ "") ∧
    (∀ (codes : List (Int × String)) (c : Int),
        List.lookup c codes = none →
        describeCode codes c = "Unknown code " ++ toString c ∧
        strContains (describeCode codes c) (toString c) = true ∧
        describeCode codes c ≠ "") := by
  constructor
  · intro tbl code h
    refine ⟨by simp [getWeatherDescription, h], ?_⟩
    simp [getWeatherDescription, h]
  · intro codes c h
    have he : describeCode codes c = "Unknown code " ++ toString c := by
      simp [describeCode, h]
    refine ⟨he, ?_, ?_⟩
    · rw [he]; exact strContains_append_right _ _
    · rw [he]; exact string_append_ne_empty_left _ _ (by decide)

theorem translator_amended_witness :
    (getWeatherDescription true (some [("0", "Clear sky")]) 17 = "No matching description found!" ∧
     getWeatherDescription true (some [("0", "Clear sky")]) 17 ≠ "") ∧
    (describeCode [((0 : Int), "Clear sky")] 95 = "Unknown code " ++ toString (95 : Int) ∧
     strContains (describeCode [((0 : Int), "Clear sky")] 95) (toString (95 : Int)) = true ∧
     describeCode [((0 : Int), "Clear sky")] 95 ≠ "") :=
  ⟨translator_amended.1 [("0", "Clear sky")] 17 (by decide),
   translator_amended.2 [((0 : Int), "Clear sky")] 95 (by decide)⟩

/-- A concrete decoded upstream payload carrying weather code 95. -/
def sampleRaw : RawResp :=
  { Latitude := 13, Longitude := 80, Generationtime := 0,
    CurrentWeather := { Temperature := 31, WeatherCode := 95,
                        Time := "2025-10-03T10:00", Windspeed := 5,
                        Winddirection := 180, Humidity := 70, Rain := 0 } }

/-- C5 (code-bug evaluation): on a successful pipeline the result keeps
the caller's original city string (`"Chennai"`, not re-normalized) and
the upstream's own echoed coordinates, and the code 95 is translated
into the description — but the returned `WeatherCode` is `0`, not the
upstream payload's 95: the composite literal at `weather.go:222-231`
omits the `WeatherCode` field, leaving Go's zero value. -/
theorem weatherCode_dropped :
    sampleRaw.CurrentWeather.WeatherCode = 95 ∧
    (getWeather "Chennai" (.ok [("chennai", (13, 80))]) (.ok ⟨200, "{}"⟩)
        (fun _ => some sampleRaw) []).1 =
      .ok { City := "Chennai", TempC := 31, Description := "Unknown code 95",
            Timestamp := "2025-10-03T10:00", Lat := 13, Lon := 80,
            WeatherCode := 0, Humidity := 70, Rain := 0 } := by decide

/-- C7 (counterexample): a whitespace-only city produces the
"city name is required" error, which `weatherHandler` does not map
specially — the response status is 500, not the claimed 400. -/
theorem blank_city_status_counterexample :
    weatherHandlerStatus
        (getWeather "   " (.ok []) (.error "down") (fun _ => none) []).1 = 500 ∧
    (500 : Nat) ≠ 400 := by decide

/-- C7 (amended): for every empty or whitespace-only city, `GetWeather`
fails immediately with the required-city error, before reading the city
table or contacting the upstream (this `GetWeather` variant consults no
cache); at the HTTP boundary that error surfaces as a 500 — only
`CityNotFound` receives a 4xx mapping (404). -/
theorem blank_city_amended (city : String) (citiesRes : Except String Table)
    (fetchRes : Except String HttpResp) (decodeBody : String → Option RawResp)
    (codes : List (Int × String)) (h : trimSpace city = "") :
    getWeather city citiesRes fetchRes decodeBody codes = (.error .cityRequired, []) ∧
    weatherHandlerStatus (.error .cityRequired) = 500 := by
  exact ⟨by simp [getWeather, h], rfl⟩

theorem blank_city_amended_witness :
    getWeather " \t " (.ok []) (.error "x") (fun _ => none) [] =
      (.error .cityRequired, []) ∧
    weatherHandlerStatus (.error .cityRequired) = 500 :=
  blank_city_amended " \t " _ _ _ _ (by decide)

/-- C8: the cache client's `Get` reports an absent key (`redis.Nil`) as
the error-free absent result `(nil, nil)` — indistinguishable from an
empty cache — and anything returned on the error channel stems from a
genuine Redis failure reply for the computed key. -/
theorem clientGet_absence (store : String → RedisReply) (city : String) (t : GoTime) :
    (store (buildKey city t) = .nil → clientGet store city t = .ok none) ∧
    (∀ e, clientGet store city t = .error e →
      ∃ e0, store (buildKey city t) = .err e0 ∧ e = "redis get failed: " ++ e0) := by
  constructor
  · intro h
    simp [clientGet, h]
  · intro e h
    unfold clientGet at h
    cases hs : store (buildKey city t) with
    | nil => rw [hs] at h; exact absurd h (by simp)
    | val v => rw [hs] at h; exact absurd h (by simp)
    | err e0 =>
      rw [hs] at h
      simp only [Except.error.injEq] at h
      exact ⟨e0, rfl, h.symm⟩

theorem clientGet_absence_witness :
    clientGet (fun _ => .nil) "chennai" ⟨2025, 10, 3, 10, 7, 0, 0⟩ = .ok none :=
  (clientGet_absence (fun _ => .nil) "chennai" ⟨2025, 10, 3, 10, 7, 0, 0⟩).1 rfl

/-- The status-code error and the transport error even render to
distinct `err.Error()` strings: their message heads differ at index 9
(`"upstream error ..."` vs `"upstream request failed: ..."`). -/
theorem upstreamError_message_ne (s : Nat) (b m : String) :
    (GWErr.upstreamError s b).message ≠ (GWErr.upstreamUnreachable m).message := by
  intro h
  simp only [GWErr.message] at h
  have h9 := congrArg (fun str => str.data[9]?) h
  simp only [string_data_append, List.append_assoc] at h9
  rw [List.getElem?_append_left (by decide), List.getElem?_append_left (by decide)] at h9
  exact absurd h9 (by decide)

/-- C6: when the upstream exchange completes with a non-2xx status, the
fetch path fails with the error carrying that numeric status and the
trimmed response body; a transport-level failure instead produces the
unreachable error, and the two error values (and even their rendered
messages) are distinct for all payloads. -/
theorem upstream_non2xx (city : String) (cities : Table) (coords : ℚ × ℚ)
    (status : Nat) (body : String) (decodeBody : String → Option RawResp)
    (codes : List (Int × String))
    (hcity : trimSpace city ≠ "")
    (hres : resolveStep cities (goToLower (trimSpace city)) = .ok coords)
    (hstatus : status < 200 ∨ 300 ≤ status) :
    (getWeather city (.ok cities) (.ok ⟨status, body⟩) decodeBody codes).1 =
      .error (.upstreamError status (trimSpace body)) ∧
    (∀ e, (getWeather city (.ok cities) (.error e) decodeBody codes).1 =
      .error (.upstreamUnreachable e)) ∧
    (∀ m, GWErr.upstreamError status (trimSpace body) ≠ .upstreamUnreachable m) ∧
    (∀ m, (GWErr.upstreamError status (trimSpace body)).message ≠
          (GWErr.upstreamUnreachable m).message) := by
  have hne : status ≠ 200 := by omega
  refine ⟨?_, ?_, fun m h => GWErr.noConfusion h,
    fun m => upstreamError_message_ne status (trimSpace body) m⟩
  · simp [getWeather, hcity, hres, hne]
  · intro e
    simp [getWeather, hcity, hres]

theorem upstream_non2xx_witness :
    (getWeather "chennai" (.ok [("chennai", (13, 80))]) (.ok ⟨503, " oops "⟩)
        (fun _ => none) []).1 =
      .error (.upstreamError 503 (trimSpace " oops ")) :=
  (upstream_non2xx "chennai" [("chennai", (13, 80))] (13, 80) 503 " oops "
    (fun _ => none) [] (by decide) (by decide) (Or.inr (by decide))).1

/-! Helper lemmas for C10 -/

theorem arrStep_find_skip (acc : Table) (e : CityEntry) (n : String)
    (h : goToLower (trimSpace (firstNonEmpty e.Name e.City)) = n →
         firstNonZero e.Lat e.Latitude = 0 ∧ firstNonZero e.Lon e.Longitude = 0) :
    (arrStep acc e).find n = acc.find n := by
  unfold arrStep
  by_cases h0 : goToLower (trimSpace (firstNonEmpty e.Name e.City)) = ""
  · simp [h0]
  · by_cases hz : firstNonZero e.Lat e.Latitude ≠ 0 ∨ firstNonZero e.Lon e.Longitude ≠ 0
    · have hname : goToLower (trimSpace (firstNonEmpty e.Name e.City)) ≠ n := by
        intro hn
        obtain ⟨hl, hr⟩ := h hn
        rcases hz with hz | hz
        · exact hz hl
        · exact hz hr
      have hbeq : (n == goToLower (trimSpace (firstNonEmpty e.Name e.City))) = false := by
        simp [Ne.symm hname]
      simp [h0, hz, Table.insert, Table.find, List.lookup, hbeq]
    · simp [h0, hz]

theorem foldl_arrStep_find (arr : List CityEntry) (acc : Table) (n : String)
    (h : ∀ e ∈ arr, goToLower (trimSpace (firstNonEmpty e.Name e.City)) = n →
        firstNonZero e.Lat e.Latitude = 0 ∧ firstNonZero e.Lon e.Longitude = 0) :
    (arr.foldl arrStep acc).find n = acc.find n := by
  induction arr generalizing acc with
  | nil => rfl
  | cons e tl ih =>
    rw [List.foldl_cons, ih (arrStep acc e) (fun x hx => h x (List.mem_cons_of_mem _ hx))]
    exact arrStep_find_skip acc e n (h e (List.mem_cons_self _ _))

theorem citiesFromArray_find_none (arr : List CityEntry) (n : String)
    (h : ∀ e ∈ arr, goToLower (trimSpace (firstNonEmpty e.Name e.City)) = n →
        firstNonZero e.Lat e.Latitude = 0 ∧ firstNonZero e.Lon e.Longitude = 0) :
    (citiesFromArray arr).find n = none := by
  unfold citiesFromArray
  rw [foldl_arrStep_find arr [] n h]
  rfl

theorem readCitiesObj_ok_ne_nil (objParse : Option (List (String × ObjEntry)))
    (t : Table) (h : readCitiesObj objParse = .ok t) : t ≠ [] := by
  unfold readCitiesObj at h
  cases objParse with
  | none => simp at h
  | some obj =>
    dsimp only at h
    by_cases h1 : obj = []
    · rw [if_pos h1] at h
      exact absurd h (by simp)
    · rw [if_neg h1] at h
      by_cases h2 : citiesFromObj obj = []
      · rw [if_pos h2] at h
        exact absurd h (by simp)
      · rw [if_neg h2] at h
        simp only [Except.ok.injEq] at h
        subst h
        exact h2

theorem readCities_ok_ne_nil (readOk : Bool) (arrParse : Option (List CityEntry))
    (objParse : Option (List (String × ObjEntry))) (t : Table)
    (h : readCities readOk arrParse objParse = .ok t) : t ≠ [] := by
  unfold readCities at h
  cases readOk with
  | false => simp at h
  | true =>
    simp only [Bool.not_true, Bool.false_eq_true, if_false] at h
    cases arrParse with
    | none => exact readCitiesObj_ok_ne_nil _ _ h
    | some arr =>
      dsimp only at h
      by_cases h1 : arr = []
      · rw [if_pos h1] at h
        exact readCitiesObj_ok_ne_nil _ _ h
      · rw [if_neg h1] at h
        by_cases h2 : citiesFromArray arr = []
        · rw [if_pos h2] at h
          exact absurd h (by simp)
        · rw [if_neg h2] at h
          simp only [Except.ok.injEq] at h
          subst h
          exact h2

/-- C10: loading the city table drops every array entry whose selected
latitude and longitude are both exactly zero, so a city whose entries
all carry coordinates `(0, 0)` is absent from the table and `GetWeather`
reports it as `CityNotFound`; moreover `readCities` never returns an
empty table together with a nil error. -/
theorem zero_coord_cities_dropped :
    (∀ (arr : List CityEntry) (n : String),
      (∀ e ∈ arr, goToLower (trimSpace (firstNonEmpty e.Name e.City)) = n →
          firstNonZero e.Lat e.Latitude = 0 ∧ firstNonZero e.Lon e.Longitude = 0) →
      (citiesFromArray arr).find n = none) ∧
    (∀ (readOk : Bool) (arrParse : Option (List CityEntry))
        (objParse : Option (List (String × ObjEntry))) (t : Table),
      readCities readOk arrParse objParse = .ok t → t ≠ []) ∧
    (∀ (arr : List CityEntry) (city : String) (fetchRes : Except String HttpResp)
        (decodeBody : String → Option RawResp) (codes : List (Int × String)),
      trimSpace city ≠ "" →
      citiesFromArray arr ≠ [] →
      (∀ e ∈ arr, goToLower (trimSpace (firstNonEmpty e.Name e.City)) =
            goToLower (trimSpace city) →
          firstNonZero e.Lat e.Latitude = 0 ∧ firstNonZero e.Lon e.Longitude = 0) →
      (∀ e ∈ arr, goToLower (trimSpace (firstNonEmpty e.Name e.City)) =
            beforeComma (goToLower (trimSpace city)) →
          firstNonZero e.Lat e.Latitude = 0 ∧ firstNonZero e.Lon e.Longitude = 0) →
      (getWeather city (readCities true (some arr) none) fetchRes decodeBody codes).1 =
        .error .cityNotFound) := by
  refine ⟨citiesFromArray_find_none, readCities_ok_ne_nil, ?_⟩
  intro arr city fetchRes decodeBody codes hcity htbl hz1 hz2
  have harr : arr ≠ [] := by
    intro h0
    subst h0
    exact htbl rfl
  have hr : readCities true (some arr) none = .ok (citiesFromArray arr) := by
    simp [readCities, harr, htbl]
  have hf1 := citiesFromArray_find_none arr (goToLower (trimSpace city)) hz1
  have hf2 := citiesFromArray_find_none arr
    (beforeComma (goToLower (trimSpace city))) hz2
  have hstep : resolveStep (citiesFromArray arr) (goToLower (trimSpace city)) =
      .error .cityNotFound := by
    simp [resolveStep, hf1, hf2]
  simp [getWeather, hcity, hr, hstep]

/-- A dataset where `zerotown` appears only with `(0, 0)` coordinates. -/
def sampleCityEntries : List CityEntry :=
  [⟨"Zerotown", "", 0, 0, 0, 0⟩, ⟨"Chennai", "", 0, 0, 13, 80⟩]

theorem zero_coord_cities_dropped_witness :
    (citiesFromArray sampleCityEntries).find "zerotown" = none ∧
    ([("chennai", ((13 : ℚ), (80 : ℚ)))] : Table) ≠ [] ∧
    (getWeather "Zerotown" (readCities true (some sampleCityEntries) none)
        (.error "down") (fun _ => none) []).1 = .error .cityNotFound :=
  ⟨zero_coord_cities_dropped.1 sampleCityEntries "zerotown" (by decide),
   zero_coord_cities_dropped.2.1 true (some sampleCityEntries) none
     [("chennai", ((13 : ℚ), (80 : ℚ)))] (by decide),
   zero_coord_cities_dropped.2.2 sampleCityEntries "Zerotown" (.error "down")
     (fun _ => none) [] (by decide) (by decide) (by decide) (by decide)⟩

end WeatherCli
